import Mathlib

/-! Verification of the Vietnamese city-name normalization and search-dispatch
core of the weather-forecast backend.

The Python sources embedded here are
`backend/validate_information/city_normalizer.py` (class
`VietnameseCityNormalizer`) and the `search_cities` route handler of
`backend/app.py`.  Python strings are modelled as lists of characters,
Python `str.lower()` as a finite character table covering the ASCII and
Vietnamese letters the program works with, and the outbound HTTP search
call as an explicit provider function returning `Except`.
-/

namespace WeatherSearch

/-- Python `str` values are modelled as lists of characters. -/
abbrev Str := List Char

/-- Turn a Lean string literal into the character-list model. -/
def pystr (s : String) : Str := s.data

/-- The ASCII whitespace characters removed by Python `str.strip()`. -/
def pyWhitespace : Str := [' ', '\t', '\n', '\r', '\x0b', '\x0c']

/-- Python `s.strip()`: remove leading and trailing whitespace. -/
def pyStrip (s : Str) : Str :=
  ((s.dropWhile (fun c => pyWhitespace.contains c)).reverse.dropWhile
    (fun c => pyWhitespace.contains c)).reverse

/-- Uppercase letters recognised by the model of Python `str.lower()`:
ASCII letters together with the uppercase Vietnamese diacritic letters. -/
def upperLetters : Str :=
  pystr "ABCDEFGHIJKLMNOPQRSTUVWXYZÀÁẢÃẠĂẰẮẲẴẶÂẦẤẨẪẬĐÈÉẺẼẸÊỀẾỂỄỆÌÍỈĨỊÒÓỎÕỌÔỒỐỔỖỘƠỜỚỞỠỢÙÚỦŨỤƯỪỨỬỮỰỲÝỶỸỴ"

/-- Lowercase counterparts of `upperLetters`, position by position. -/
def lowerLetters : Str :=
  pystr "abcdefghijklmnopqrstuvwxyzàáảãạăằắẳẵặâầấẩẫậđèéẻẽẹêềếểễệìíỉĩịòóỏõọôồốổỗộơờớởỡợùúủũụưừứửữựỳýỷỹỵ"

/-- Model of Python `str.lower()` on one character: table lookup, identity
outside the table. -/
def pyLowerChar (c : Char) : Char :=
  match (upperLetters.zip lowerLetters).find? (fun p => p.1 == c) with
  | some p => p.2
  | none => c

/-- Model of Python `str.lower()`. -/
def pyLower (s : Str) : Str := s.map pyLowerChar

/-- The `vietnamese_map` table of `remove_vietnamese_diacritics`, in source
order, as (diacritic letter, base letter) pairs. -/
def vietnamese_map : List (Char × Char) :=
  (pystr "àáảãạăằắẳẵặâầấẩẫậđèéẻẽẹêềếểễệìíỉĩịòóỏõọôồốổỗộơờớởỡợùúủũụưừứửữựỳýỷỹỵ").zip
    (pystr "aaaaaaaaaaaaaaaaadeeeeeeeeeeeiiiiiooooooooooooooooouuuuuuuuuuuyyyyy")

/-- Python single-character `str.replace(a, b)`. -/
def replaceChar (s : Str) (a b : Char) : Str :=
  s.map (fun c => if c = a then b else c)

/-- Source method `remove_vietnamese_diacritics`: lowercase the text, then
run one `str.replace` per table entry, in table order. -/
def remove_vietnamese_diacritics (text : Str) : Str :=
  vietnamese_map.foldl (fun r p => replaceChar r p.1 p.2) (pyLower text)

/-- The static alias table `CITY_MAPPINGS`, in source order. -/
def CITY_MAPPINGS : List (Str × Str) := [
  (pystr "hà nội", pystr "hanoi"),
  (pystr "thành phố hồ chí minh", pystr "ho chi minh city"),
  (pystr "tp hồ chí minh", pystr "ho chi minh city"),
  (pystr "tp.hcm", pystr "ho chi minh city"),
  (pystr "hcm", pystr "ho chi minh city"),
  (pystr "sài gòn", pystr "saigon"),
  (pystr "đà nẵng", pystr "da nang"),
  (pystr "hải phòng", pystr "hai phong"),
  (pystr "cần thơ", pystr "can tho"),
  (pystr "biên hòa", pystr "bien hoa"),
  (pystr "nha trang", pystr "nha trang"),
  (pystr "huế", pystr "hue"),
  (pystr "buôn ma thuột", pystr "buon ma thuot"),
  (pystr "pleiku", pystr "pleiku"),
  (pystr "quy nhơn", pystr "quy nhon"),
  (pystr "thủ đức", pystr "thu duc"),
  (pystr "long xuyên", pystr "long xuyen"),
  (pystr "mỹ tho", pystr "my tho"),
  (pystr "cà mau", pystr "ca mau"),
  (pystr "bạc liêu", pystr "bac lieu"),
  (pystr "vũng tàu", pystr "vung tau"),
  (pystr "phan thiết", pystr "phan thiet"),
  (pystr "đà lạt", pystr "da lat"),
  (pystr "vĩnh long", pystr "vinh long"),
  (pystr "rạch giá", pystr "rach gia"),
  (pystr "hạ long", pystr "ha long"),
  (pystr "việt trì", pystr "viet tri"),
  (pystr "nam định", pystr "nam dinh"),
  (pystr "thái nguyên", pystr "thai nguyen"),
  (pystr "thái bình", pystr "thai binh"),
  (pystr "ninh bình", pystr "ninh binh"),
  (pystr "thanh hóa", pystr "thanh hoa"),
  (pystr "vinh", pystr "vinh"),
  (pystr "đồng hới", pystr "dong hoi"),
  (pystr "tam kỳ", pystr "tam ky"),
  (pystr "quảng ngãi", pystr "quang ngai"),
  (pystr "tuy hòa", pystr "tuy hoa"),
  (pystr "phan rang", pystr "phan rang"),
  (pystr "bảo lộc", pystr "bao loc"),
  (pystr "trà vinh", pystr "tra vinh"),
  (pystr "sóc trăng", pystr "soc trang"),
  (pystr "châu đốc", pystr "chau doc"),
  (pystr "hà tĩnh", pystr "ha tinh"),
  (pystr "hòa bình", pystr "hoa binh"),
  (pystr "sơn la", pystr "son la"),
  (pystr "lào cai", pystr "lao cai"),
  (pystr "điện biên phủ", pystr "dien bien phu"),
  (pystr "lai châu", pystr "lai chau"),
  (pystr "yên bái", pystr "yen bai"),
  (pystr "tuyên quang", pystr "tuyen quang"),
  (pystr "hà giang", pystr "ha giang"),
  (pystr "cao bằng", pystr "cao bang"),
  (pystr "bắc kạn", pystr "bac kan"),
  (pystr "lạng sơn", pystr "lang son"),
  (pystr "móng cái", pystr "mong cai"),
  (pystr "bắc ninh", pystr "bac ninh"),
  (pystr "bắc giang", pystr "bac giang"),
  (pystr "phú thọ", pystr "phu tho"),
  (pystr "vĩnh phúc", pystr "vinh phuc"),
  (pystr "hưng yên", pystr "hung yen"),
  (pystr "hải dương", pystr "hai duong"),
  (pystr "hà nam", pystr "ha nam"),
  (pystr "phủ lý", pystr "phu ly"),
  (pystr "nghệ an", pystr "nghe an"),
  (pystr "quảng bình", pystr "quang binh"),
  (pystr "quảng trị", pystr "quang tri"),
  (pystr "kon tum", pystr "kon tum"),
  (pystr "gia lai", pystr "gia lai"),
  (pystr "đắk lắk", pystr "dak lak"),
  (pystr "đắk nông", pystr "dak nong"),
  (pystr "lâm đồng", pystr "lam dong"),
  (pystr "bình phước", pystr "binh phuoc"),
  (pystr "tây ninh", pystr "tay ninh"),
  (pystr "bình dương", pystr "binh duong"),
  (pystr "đồng nai", pystr "dong nai"),
  (pystr "bà rịa", pystr "ba ria"),
  (pystr "long an", pystr "long an"),
  (pystr "tiền giang", pystr "tien giang"),
  (pystr "bến tre", pystr "ben tre"),
  (pystr "đồng tháp", pystr "dong thap"),
  (pystr "an giang", pystr "an giang"),
  (pystr "kiên giang", pystr "kien giang"),
  (pystr "hậu giang", pystr "hau giang"),
  (pystr "vĩnh châu", pystr "vinh chau")]

/-- Python dict lookup `CITY_MAPPINGS.get(k)`; `k in CITY_MAPPINGS` is
`(lookupCity k).isSome`. -/
def lookupCity (k : Str) : Option Str :=
  (CITY_MAPPINGS.find? (fun p => p.1 == k)).map (fun p => p.2)

/-- The administrative name parts stripped inside `normalize_city_name`
(source order, line 165). -/
def adminPrefixes : List Str :=
  [pystr "thành phố", pystr "tp.", pystr "tp ", pystr "tỉnh", pystr "huyện",
   pystr "quận", pystr "thị xã", pystr "thị trấn"]

/-- The stripping loop of `normalize_city_name` (lines 166-168): for each
table entry in order, if the current string starts with it, drop it and
strip surrounding whitespace; then continue with the next entry. -/
def stripAdmin (ps : List Str) (s : Str) : Str :=
  match ps with
  | [] => s
  | p :: rest => stripAdmin rest (if p.isPrefixOf s then pyStrip (s.drop p.length) else s)

/-- How many times the stripping loop fires on input `s`. -/
def stripCount (ps : List Str) (s : Str) : Nat :=
  match ps with
  | [] => 0
  | p :: rest =>
    if p.isPrefixOf s then stripCount rest (pyStrip (s.drop p.length)) + 1
    else stripCount rest s

/-- One `if x not in acc: acc.append(x)` step on an accumulator list. -/
def appendIfMissing (l : List Str) (x : Str) : List Str :=
  if x ∈ l then l else l ++ [x]

/-- The string path of `VietnameseCityNormalizer.normalize_city_name`
(lines 153-183, after the type guard). -/
def normalizeStr (city_name : Str) : List Str :=
  let original := pyStrip city_name
  let city_lower := pyLower original
  let afterExact :=
    match lookupCity city_lower with
    | some t => [t]
    | none => []
  let cityStripped := stripAdmin adminPrefixes city_lower
  let afterStripped :=
    match lookupCity cityStripped with
    | some t => afterExact ++ [t]
    | none => afterExact
  let afterFold := appendIfMissing afterStripped (remove_vietnamese_diacritics cityStripped)
  appendIfMissing afterFold original

/-- A fragment of Python runtime values, enough to express the type guard
of `normalize_city_name`. -/
inductive PyVal where
  | none
  | str (s : Str)
  | int (n : Int)
deriving DecidableEq, Repr

/-- Source method `normalize_city_name` with its guard
`if not city_name or not isinstance(city_name, str): return [city_name]`
(lines 150-151): falsy or non-string input is returned unchanged in a
one-element list. -/
def normalize_city_name (city_name : PyVal) : List PyVal :=
  match city_name with
  | .str s => if s = [] then [.str s] else (normalizeStr s).map .str
  | v => [v]

/-- The diacritic alphabet tested by `is_vietnamese_city_query` (line 232),
identical to the key column of `vietnamese_map`. -/
def vietnamese_chars : Str :=
  pystr "àáảãạăằắẳẵặâầấẩẫậđèéẻẽẹêềếểễệìíỉĩịòóỏõọôồốổỗộơờớởỡợùúủũụưừứửữựỳýỷỹỵ"

/-- The shorter administrative-name list used by `is_vietnamese_city_query`
(line 237): it lacks the last two entries of `adminPrefixes`. -/
def classifierPrefixes : List Str :=
  [pystr "thành phố", pystr "tp.", pystr "tp ", pystr "tỉnh", pystr "huyện",
   pystr "quận"]

/-- Source method `is_vietnamese_city_query` (lines 217-243). -/
def is_vietnamese_city_query (query : Str) : Bool :=
  if query = [] then false
  else
    let has_diacritics := vietnamese_chars.any (fun c => (pyLower query).contains c)
    let query_lower := pyLower query
    let hasPfx := classifierPrefixes.any (fun p => p.isPrefixOf query_lower)
    let in_mappings := (lookupCity query_lower).isSome
    has_diacritics || hasPfx || in_mappings

/-- Wire-level search result from the provider, with the fields the handler
reads; `id` is `result.get('id')`, so an absent id is `Option.none`.  The
numeric coordinates are carried opaquely (never computed on). -/
structure SearchResult where
  id : Option Nat
  name : Str
  region : Str
  country : Str
  lat : Int
  lon : Int
  url : Str
deriving DecidableEq, Repr

/-- Failures one provider call can raise: `requests` turns a non-2xx status
into `HTTPError` via `raise_for_status`; timeouts raise `Timeout`; anything
else (connection errors, bad JSON) lands in the generic handler. -/
inductive SearchErr where
  | httpError
  | timeout
  | other
deriving DecidableEq, Repr

/-- One formatted entry of the successful response body (lines 681-693). -/
structure FormattedResult where
  id : Option Nat
  name : Str
  region : Str
  country : Str
  lat : Int
  lon : Int
  url : Str
  label : Str
deriving DecidableEq, Repr

/-- Lines 683-692: copy the fields and build a display label; the label
drops the region part when the region is falsy (empty). -/
def formatResult (r : SearchResult) : FormattedResult :=
  { id := r.id, name := r.name, region := r.region, country := r.country,
    lat := r.lat, lon := r.lon, url := r.url,
    label :=
      if r.region ≠ [] then
        r.name ++ pystr ", " ++ r.region ++ pystr ", " ++ r.country
      else r.name ++ pystr ", " ++ r.country }

/-- Lines 670-674: append one provider result to the accumulator when its
id has not been seen, recording the id as seen. -/
def addUnique (acc : List SearchResult × List (Option Nat)) (r : SearchResult) :
    List SearchResult × List (Option Nat) :=
  if r.id ∈ acc.2 then acc else (acc.1 ++ [r], acc.2 ++ [r.id])

/-- The candidate loop of `search_cities` (lines 654-678).  `provider q`
models `requests.get` + `raise_for_status` + `.json()` for one candidate
query.  The second component of a successful value is the trace of
candidates actually sent to the provider, in order. -/
def searchLoop (provider : Str → Except SearchErr (List SearchResult)) :
    List Str → List SearchResult → List (Option Nat) → List Str →
    Except SearchErr (List SearchResult × List Str)
  | [], acc, _, issued => .ok (acc, issued)
  | q :: rest, acc, seen, issued =>
    match provider q with
    | .error e => .error e
    | .ok rs =>
      let merged := rs.foldl addUnique (acc, seen)
      if 10 ≤ merged.1.length then .ok (merged.1, issued ++ [q])
      else searchLoop provider rest merged.1 merged.2 (issued ++ [q])

/-- The candidate loop started from the empty accumulator (line 650-651). -/
def searchRun (provider : Str → Except SearchErr (List SearchResult))
    (queries : List Str) : Except SearchErr (List SearchResult × List Str) :=
  searchLoop provider queries [] [] []

/-- Error payload of the handler: error code and HTTP status. -/
structure ErrorResponse where
  code : Str
  status : Nat
deriving DecidableEq, Repr

/-- The `except` clauses of `search_cities` (lines 702-727). -/
def errorResponseOf : SearchErr → ErrorResponse
  | .httpError => ⟨pystr "SEARCH_ERROR", 500⟩
  | .timeout => ⟨pystr "TIMEOUT_ERROR", 504⟩
  | .other => ⟨pystr "INTERNAL_ERROR", 500⟩

/-- Outcome of the `search_cities` handler body: a formatted result list
with HTTP status 200, or an error response with no results. -/
inductive SearchResponse where
  | ok (results : List FormattedResult) (status : Nat)
  | err (e : ErrorResponse)
deriving DecidableEq, Repr

/-- Source route body `search_cities` from the candidate list on: run the loop, format
`all_results[:10]` (lines 650-700), or translate the raised exception into
an error response (lines 702-727). -/
def search_cities (provider : Str → Except SearchErr (List SearchResult))
    (queries : List Str) : SearchResponse :=
  match searchRun provider queries with
  | .error e => .err (errorResponseOf e)
  | .ok (allResults, _) => .ok ((allResults.take 10).map formatResult) 200

/-- The characters removed by `InputValidator.sanitize_input`
(`re.sub` on the class `[<>\x22\x27\x60]`, input_validator.py line 199):
angle brackets, double quote, single quote, backquote. -/
def sanitizeRemoved : Str := ['<', '>', Char.ofNat 34, Char.ofNat 39, Char.ofNat 96]

/-- Source helper `sanitize_input` on a string: drop the dangerous
characters, then strip. -/
def sanitize_input (s : Str) : Str :=
  pyStrip (s.filter (fun c => !sanitizeRemoved.contains c))

/-- The query validation at the top of the `search_cities` handler
(lines 616-635): take the trimmed `q`, reject empty and one-character
queries, then sanitize. -/
def searchQueryGuard (rawQ : Str) : Except ErrorResponse Str :=
  let query := pyStrip rawQ
  if query = [] then .error ⟨pystr "MISSING_QUERY", 400⟩
  else if query.length < 2 then .error ⟨pystr "QUERY_TOO_SHORT", 400⟩
  else .ok (sanitize_input query)

/-- The whole handler body (lines 616-700): guard, pick the candidate list
(normalizer for Vietnamese-looking queries, the query alone otherwise),
then dispatch. -/
def search_cities_endpoint (provider : Str → Except SearchErr (List SearchResult))
    (rawQ : Str) : SearchResponse :=
  match searchQueryGuard rawQ with
  | .error e => .err e
  | .ok query =>
    let search_queries :=
      if is_vietnamese_city_query query then normalizeStr query else [query]
    search_cities provider search_queries

/-- Reference first-occurrence-per-id filter, used to characterise the
dispatcher accumulator: keep a result when its id is new, in stream
order. -/
def dedupById : List SearchResult → List (Option Nat) → List SearchResult
  | [], _ => []
  | r :: rs, seen =>
    if r.id ∈ seen then dedupById rs seen else r :: dedupById rs (seen ++ [r.id])

/-- Concatenation of the provider responses over a list of issued queries
(a failed query contributes nothing; on a successful run every issued
query succeeded). -/
def streamOf (provider : Str → Except SearchErr (List SearchResult)) :
    List Str → List SearchResult
  | [] => []
  | q :: qs =>
    (match provider q with | .ok rs => rs | .error _ => []) ++ streamOf provider qs

/-- Modelled from the spec wording of claim C6: strip one leading
administrative name only — the longest entry of `adminPrefixes` that
matches — and return the rest, stripped of whitespace. -/
def stripLongestOne (s : Str) : Str :=
  match (adminPrefixes.filter (fun p => p.isPrefixOf s)).foldl
      (fun best p =>
        match best with
        | Option.none => some p
        | some b => if b.length < p.length then some p else best)
      Option.none with
  | some p => pyStrip (s.drop p.length)
  | none => s

/-- The classifier condition as the spec words it (claim C7): a Vietnamese
diacritic occurs in the query, or the query starts with a recognised
administrative name (the full `adminPrefixes` list), or the lowercased
query is an alias key. -/
def isVietnameseQuerySpec (q : Str) : Bool :=
  let ql := pyLower q
  vietnamese_chars.any (fun c => ql.contains c) ||
  adminPrefixes.any (fun p => p.isPrefixOf ql) ||
  (lookupCity ql).isSome

/-- The alphabet of the C8 idempotence claim: Vietnamese diacritic letters
(either case) and their base letters (either case). -/
def foldAlphabet : Str :=
  vietnamese_chars ++
  pystr "ÀÁẢÃẠĂẰẮẲẴẶÂẦẤẨẪẬĐÈÉẺẼẸÊỀẾỂỄỆÌÍỈĨỊÒÓỎÕỌÔỒỐỔỖỘƠỜỚỞỠỢÙÚỦŨỤƯỪỨỬỮỰỲÝỶỸỴ" ++
  pystr "adeiouyADEIOUY"

/-- Per-character action of `remove_vietnamese_diacritics`: lowercase,
then run the substitution chain on the character. -/
def foldChar (c : Char) : Char :=
  vietnamese_map.foldl (fun d p => if d = p.1 then p.2 else d) (pyLowerChar c)

/-- A fixed result record used by the concrete dispatcher checks. -/
def mkResult (n : Nat) : SearchResult :=
  { id := some n, name := pystr "city", region := [], country := pystr "VN",
    lat := 0, lon := 0, url := pystr "u" }

/-- Ten distinct-id results, the mock payload for the first candidate. -/
def tenResults : List SearchResult := (List.range 10).map mkResult

/-- Mock provider: ten unique results for "hanoi", an HTTP error for
"bad", nothing otherwise. -/
def mockProvider : Str → Except SearchErr (List SearchResult) :=
  fun q =>
    if q = pystr "hanoi" then .ok tenResults
    else if q = pystr "bad" then .error .httpError
    else .ok []

/-- Mock provider whose two candidate responses overlap on one id. -/
def mockProviderDup : Str → Except SearchErr (List SearchResult) :=
  fun q =>
    if q = pystr "hanoi" then .ok [mkResult 1, mkResult 2]
    else .ok [mkResult 2, mkResult 3]


set_option maxRecDepth 10000
set_option maxHeartbeats 1000000

/-- A chain of single-character replacements acts on a string exactly as
the per-character substitution chain acts on each character. -/
theorem foldl_replaceChar_eq_map (ps : List (Char × Char)) (l : Str) :
    ps.foldl (fun r p => replaceChar r p.1 p.2) l
      = l.map (fun c => ps.foldl (fun d p => if d = p.1 then p.2 else d) c) := by
  induction ps generalizing l with
  | nil => simp
  | cons p ps ih =>
      rw [List.foldl_cons, ih]
      unfold replaceChar
      rw [List.map_map]
      rfl

/-- The diacritic folder is the per-character map `foldChar`. -/
theorem remove_eq_map_foldChar (s : Str) :
    remove_vietnamese_diacritics s = s.map foldChar := by
  unfold remove_vietnamese_diacritics
  rw [foldl_replaceChar_eq_map]
  unfold pyLower
  rw [List.map_map]
  apply List.map_congr_left
  intro c hc
  unfold foldChar
  simp only [Function.comp_apply]

set_option maxHeartbeats 4000000 in
/-- On the claimed alphabet, the per-character fold action is idempotent. -/
theorem foldChar_idem : ∀ c ∈ foldAlphabet, foldChar (foldChar c) = foldChar c := by
  decide

/-- The value offered to a guarded append is in the output. -/
theorem appendIfMissing_mem_self (l : List Str) (x : Str) :
    x ∈ appendIfMissing l x := by
  unfold appendIfMissing
  split
  · assumption
  · simp

/-- A guarded append keeps a duplicate-free accumulator duplicate-free. -/
theorem appendIfMissing_nodup {l : List Str} {x : Str} (h : l.Nodup) :
    (appendIfMissing l x).Nodup := by
  unfold appendIfMissing
  split
  · exact h
  · rename_i hx
    simp [List.nodup_append, h, hx]

/-- The tail of a duplicate-free list is duplicate-free. -/
theorem tail_nodup {l : List Str} (h : l.Nodup) : l.tail.Nodup := by
  cases l with
  | nil => simp
  | cons a l => exact (List.nodup_cons.mp h).2

/-- Candidate generation written as: the two unguarded alias appends, then
the guarded diacritic-fold append, then the guarded original append. -/
theorem normalizeStr_eq (s : Str) :
    normalizeStr s = appendIfMissing (appendIfMissing
      ((match lookupCity (pyLower (pyStrip s)) with
        | some t => [t] | none => ([] : List Str))
        ++ (match lookupCity (stripAdmin adminPrefixes (pyLower (pyStrip s))) with
            | some t => [t] | none => ([] : List Str)))
      (remove_vietnamese_diacritics (stripAdmin adminPrefixes (pyLower (pyStrip s)))))
      (pyStrip s) := by
  simp only [normalizeStr]
  rcases h1 : lookupCity (pyLower (pyStrip s)) with _ | t <;>
    rcases h2 : lookupCity (stripAdmin adminPrefixes (pyLower (pyStrip s))) with _ | t2 <;>
      simp

/-- Two guarded appends on a base that is duplicate-free, or is a repeated
pair, give a list whose tail is duplicate-free, that contains the appended
value, and whose only possible duplicate is a repeated head. -/
theorem appendChain_good (base : List Str) (w o : Str)
    (hbase : base.Nodup ∨ ∃ a, base = [a, a]) :
    (appendIfMissing (appendIfMissing base w) o).tail.Nodup ∧
    o ∈ appendIfMissing (appendIfMissing base w) o ∧
    ((appendIfMissing (appendIfMissing base w) o).Nodup ∨
      ∃ a t, appendIfMissing (appendIfMissing base w) o = a :: a :: t) := by
  rcases hbase with hnd | ⟨a, rfl⟩
  · have h2 : (appendIfMissing (appendIfMissing base w) o).Nodup :=
      appendIfMissing_nodup (appendIfMissing_nodup hnd)
    exact ⟨tail_nodup h2, appendIfMissing_mem_self _ _, Or.inl h2⟩
  · by_cases hw : w ∈ [a, a]
    · have e1 : appendIfMissing [a, a] w = [a, a] := by
        simp [appendIfMissing, hw]
      rw [e1]
      by_cases ho : o ∈ [a, a]
      · have e2 : appendIfMissing [a, a] o = [a, a] := by
          simp [appendIfMissing, ho]
        rw [e2]
        exact ⟨by simp, by rw [← e2]; exact appendIfMissing_mem_self _ _,
          Or.inr ⟨a, [], rfl⟩⟩
      · have e2 : appendIfMissing [a, a] o = [a, a, o] := by
          simp [appendIfMissing, ho]
        rw [e2]
        have hoa : o ≠ a := by simp at ho; exact ho
        exact ⟨by simp [Ne.symm hoa], by simp, Or.inr ⟨a, [o], rfl⟩⟩
    · have e1 : appendIfMissing [a, a] w = [a, a, w] := by
        simp [appendIfMissing, hw]
      rw [e1]
      have hwa : w ≠ a := by simp at hw; exact hw
      by_cases ho : o ∈ [a, a, w]
      · have e2 : appendIfMissing [a, a, w] o = [a, a, w] := by
          simp [appendIfMissing, ho]
        rw [e2]
        exact ⟨by simp [Ne.symm hwa], by rw [← e2]; exact appendIfMissing_mem_self _ _,
          Or.inr ⟨a, [w], rfl⟩⟩
      · have e2 : appendIfMissing [a, a, w] o = [a, a, w, o] := by
          simp [appendIfMissing, ho]
        rw [e2]
        have h3 : o ≠ a ∧ o ≠ w := by simp at ho; tauto
        exact ⟨by simp [Ne.symm hwa, Ne.symm h3.1, Ne.symm h3.2], by simp, Or.inr ⟨a, [w, o], rfl⟩⟩

/-- Claim C1, amended: only the diacritic-fold and original-string steps of
`normalizeStr` guard on membership; the two alias-lookup steps append
unconditionally.  Hence everything after the first element is
duplicate-free, the list always contains the trimmed original, and the only
possible duplicate is the canonical alias term occupying both the first and
the second position. -/
theorem candidate_list_per_step_dedup (s : Str) :
    (normalizeStr s).tail.Nodup ∧ pyStrip s ∈ normalizeStr s ∧
    ((normalizeStr s).Nodup ∨ ∃ a t, normalizeStr s = a :: a :: t) := by
  rw [normalizeStr_eq]
  apply appendChain_good
  rcases lookupCity (pyLower (pyStrip s)) with _ | t <;>
    rcases lookupCity (stripAdmin adminPrefixes (pyLower (pyStrip s))) with _ | t2
  · left; simp
  · left; simp
  · left; simp
  · by_cases h : t = t2
    · right; refine ⟨t, ?_⟩; rw [h]; rfl
    · left; simp [h]

set_option maxHeartbeats 4000000 in
/-- Claim C1, counterexample: on the alias key "h\u00e0 n\u1ed9i" the candidate list
is ["hanoi", "hanoi", "ha noi", "h\u00e0 n\u1ed9i"], which has a duplicate, because
both the direct alias lookup and the lookup after (vacuous) prefix
stripping hit and append unconditionally. -/
theorem candidate_list_duplicate_counterexample :
    normalize_city_name (PyVal.str (pystr "hà nội"))
      = [PyVal.str (pystr "hanoi"), PyVal.str (pystr "hanoi"),
         PyVal.str (pystr "ha noi"), PyVal.str (pystr "hà nội")]
    ∧ ¬ (normalize_city_name (PyVal.str (pystr "hà nội"))).Nodup := by
  exact ⟨by decide, by decide⟩

set_option maxHeartbeats 8000000 in
/-- Claim C5: for every key of the alias table, the candidate list starts
with the mapped canonical search term; in particular the list for
"H\u00e0 N\u1ed9i" starts with "hanoi". -/
theorem alias_key_maps_to_first_candidate :
    (∀ k v, (k, v) ∈ CITY_MAPPINGS →
        (normalize_city_name (PyVal.str k)).head? = some (PyVal.str v))
    ∧ (normalize_city_name (PyVal.str (pystr "Hà Nội"))).head?
        = some (PyVal.str (pystr "hanoi")) := by
  constructor
  · intro k v hkv
    have h : ∀ p ∈ CITY_MAPPINGS,
        (normalize_city_name (PyVal.str p.1)).head? = some (PyVal.str p.2) := by decide
    exact h (k, v) hkv
  · decide

/-- Claim C5, witness: the theorem applied to the key "h\u00e0 n\u1ed9i". -/
theorem alias_key_maps_to_first_candidate_witness :
    (pystr "hà nội", pystr "hanoi") ∈ CITY_MAPPINGS ∧
    (normalize_city_name (PyVal.str (pystr "hà nội"))).head?
      = some (PyVal.str (pystr "hanoi")) :=
  ⟨by decide, alias_key_maps_to_first_candidate.1 _ _ (by decide)⟩


set_option maxHeartbeats 2000000 in
/-- Claim C8: on strings over the Vietnamese diacritic letters and their
base letters, the diacritic folder is idempotent; and it sends "\u0110\u00e0 N\u1eb5ng"
to "da nang", "C\u1ea7n Th\u01a1" to "can tho", "Hu\u1ebf" to "hue". -/
theorem fold_idempotent_on_vietnamese_alphabet :
    (∀ s : Str, (∀ c ∈ s, c ∈ foldAlphabet) →
        remove_vietnamese_diacritics (remove_vietnamese_diacritics s)
          = remove_vietnamese_diacritics s)
    ∧ remove_vietnamese_diacritics (pystr "Đà Nẵng") = pystr "da nang"
    ∧ remove_vietnamese_diacritics (pystr "Cần Thơ") = pystr "can tho"
    ∧ remove_vietnamese_diacritics (pystr "Huế") = pystr "hue" := by
  refine ⟨?_, by decide, by decide, by decide⟩
  intro s hs
  rw [remove_eq_map_foldChar, remove_eq_map_foldChar, List.map_map]
  apply List.map_congr_left
  intro c hc
  simp only [Function.comp_apply]
  exact foldChar_idem c (hs c hc)

set_option maxHeartbeats 1000000 in
/-- Claim C8, witness: idempotence instantiated on the concrete string
"\u0110\u1eb1", whose characters are in the claimed alphabet. -/
theorem fold_idempotent_witness :
    (∀ c ∈ pystr "Đằ", c ∈ foldAlphabet) ∧
    remove_vietnamese_diacritics (remove_vietnamese_diacritics (pystr "Đằ"))
      = remove_vietnamese_diacritics (pystr "Đằ") :=
  ⟨by decide, fold_idempotent_on_vietnamese_alphabet.1 (pystr "Đằ") (by decide)⟩

set_option maxHeartbeats 1000000 in
/-- Claim C6, counterexample: on "tp. qu\u1eadn 5" the source stripping loop
removes two administrative name parts (first "tp.", then "qu\u1eadn"), giving
"5", while the claimed strip-at-most-one behaviour would give "qu\u1eadn 5". -/
theorem strip_multiple_counterexample :
    stripAdmin adminPrefixes (pystr "tp. quận 5") = pystr "5" ∧
    stripCount adminPrefixes (pystr "tp. quận 5") = 2 ∧
    stripLongestOne (pystr "tp. quận 5") = pystr "quận 5" ∧
    pystr "quận 5" ≠ pystr "5" :=
  ⟨by decide, by decide, by decide, by decide⟩

set_option maxHeartbeats 1000000 in
/-- Claim C6, amended: the stripping loop makes one pass over the fixed
table in order and strips at most one occurrence per table entry, so the
number of strips is bounded by the table length (but can exceed one, as on
"tp. qu\u1eadn 5"); no table entry is a prefix of another, so for the first
strip list order and longest match coincide. -/
theorem strip_one_per_table_entry :
    (∀ (ps : List Str) (s : Str), stripCount ps s ≤ ps.length) ∧
    stripCount adminPrefixes (pystr "tp. quận 5") = 2 ∧
    List.Pairwise (fun p q => p.isPrefixOf q = false ∧ q.isPrefixOf p = false)
      adminPrefixes := by
  refine ⟨?_, by decide, by decide⟩
  intro ps
  induction ps with
  | nil => intro s; simp [stripCount]
  | cons p rest ih =>
      intro s
      simp only [stripCount, List.length_cons]
      split
      · exact Nat.succ_le_succ (ih _)
      · exact Nat.le_succ_of_le (ih _)

set_option maxHeartbeats 1000000 in
/-- Claim C9, counterexample: candidate generation does not fail fast on
empty or whitespace-only input; it returns a candidate list containing the
empty string. -/
theorem empty_query_not_guarded_counterexample :
    normalize_city_name (PyVal.str (pystr "   ")) = [PyVal.str []] ∧
    normalize_city_name (PyVal.str []) = [PyVal.str []] :=
  ⟨by decide, by decide⟩

set_option maxHeartbeats 1000000 in
/-- Claim C9, amended: `normalize_city_name` itself returns [input] for the
empty string and [""] for whitespace-only input, with no error kind; the
empty-query guard lives in the route handler, which rejects an empty `q`
with MISSING_QUERY (400) before normalization can run. -/
theorem empty_query_guard_in_handler :
    normalize_city_name (PyVal.str []) = [PyVal.str []] ∧
    normalize_city_name (PyVal.str (pystr "   ")) = [PyVal.str []] ∧
    searchQueryGuard [] = .error ⟨pystr "MISSING_QUERY", 400⟩ ∧
    searchQueryGuard (pystr "   ") = .error ⟨pystr "MISSING_QUERY", 400⟩ ∧
    (∀ provider : Str → Except SearchErr (List SearchResult),
        search_cities_endpoint provider (pystr "   ")
          = .err ⟨pystr "MISSING_QUERY", 400⟩) := by
  refine ⟨by decide, by decide, rfl, rfl, ?_⟩
  intro provider
  rfl

/-- A guarded append never returns the empty list. -/
theorem appendIfMissing_ne_nil (l : List Str) (x : Str) : appendIfMissing l x ≠ [] := by
  intro h
  have hm := appendIfMissing_mem_self l x
  rw [h] at hm
  exact absurd hm (List.not_mem_nil x)

/-- Candidate generation on a string never returns the empty list. -/
theorem normalizeStr_ne_nil (s : Str) : normalizeStr s ≠ [] := by
  rw [normalizeStr_eq]
  exact appendIfMissing_ne_nil _ _

/-- Claim C10: `normalize_city_name` is total; `None`, non-string values
and the empty string are returned unchanged in a one-element list, and the
result list is never empty. -/
theorem normalize_total_on_non_strings :
    (∀ v : PyVal,
        (v = PyVal.none ∨ (∀ s : Str, v ≠ PyVal.str s) ∨ v = PyVal.str []) →
        normalize_city_name v = [v]) ∧
    (∀ v : PyVal, normalize_city_name v ≠ []) := by
  constructor
  · intro v h
    cases v with
    | none => rfl
    | int n => rfl
    | str s =>
        rcases h with h | h | h
        · exact absurd h (by simp)
        · exact absurd rfl (h s)
        · have hs : s = [] := by injection h
          simp [normalize_city_name, hs]
  · intro v
    cases v with
    | none => simp [normalize_city_name]
    | int n => simp [normalize_city_name]
    | str s =>
        by_cases hs : s = []
        · simp [normalize_city_name, hs]
        · simp only [normalize_city_name, if_neg hs]
          intro hc
          exact normalizeStr_ne_nil s (List.map_eq_nil_iff.mp hc)

/-- Claim C10, witness: the guard evaluated at `None`, at the integer 7 and
at the empty string. -/
theorem normalize_total_witness :
    normalize_city_name PyVal.none = [PyVal.none] ∧
    normalize_city_name (PyVal.int 7) = [PyVal.int 7] ∧
    normalize_city_name (PyVal.str []) = [PyVal.str []] :=
  ⟨normalize_total_on_non_strings.1 _ (Or.inl rfl),
   normalize_total_on_non_strings.1 _ (Or.inr (Or.inl (fun _ h => PyVal.noConfusion h))),
   normalize_total_on_non_strings.1 _ (Or.inr (Or.inr rfl))⟩


open List in
/-- A lowercased query that starts with "th\u1ecb x\u00e3" or "th\u1ecb tr\u1ea5n" contains
the diacritic letter \u2018\u1ecb\u2019, so the diacritic test already fires. -/
theorem thi_entries_imply_diacritic (ql : Str)
    (h : (pystr "thị xã").isPrefixOf ql = true ∨ (pystr "thị trấn").isPrefixOf ql = true) :
    vietnamese_chars.any (fun c => ql.contains c) = true := by
  have hij : 'ị' ∈ ql := by
    rcases h with h | h <;>
    · obtain ⟨t, ht⟩ := List.isPrefixOf_iff_prefix.mp h
      rw [← ht]
      exact List.mem_append_left t (by decide)
  rw [List.any_eq_true]
  refine ⟨'ị', by decide, ?_⟩
  simpa using hij

set_option maxHeartbeats 2000000 in
/-- Claim C7: the classifier returns true exactly when the query has a
Vietnamese diacritic, or starts with a recognised administrative name
(the full table: the two entries missing from the classifier list both
contain a diacritic, so the two conditions agree), or its lowercasing is an
alias key; and it is true on "H\u00e0 N\u1ed9i" and "TP.HCM", false on "Hanoi" and
"Ho Chi Minh". -/
theorem classifier_matches_spec_condition :
    (∀ q : Str, is_vietnamese_city_query q = isVietnameseQuerySpec q) ∧
    is_vietnamese_city_query (pystr "Hà Nội") = true ∧
    is_vietnamese_city_query (pystr "TP.HCM") = true ∧
    is_vietnamese_city_query (pystr "Hanoi") = false ∧
    is_vietnamese_city_query (pystr "Ho Chi Minh") = false := by
  refine ⟨?_, by decide, by decide, by decide, by decide⟩
  intro q
  by_cases hq : q = []
  · subst hq; decide
  · simp only [is_vietnamese_city_query, isVietnameseQuerySpec, if_neg hq]
    have hsplit : adminPrefixes
        = classifierPrefixes ++ [pystr "thị xã", pystr "thị trấn"] := by decide
    rw [hsplit, List.any_append]
    by_cases hd : vietnamese_chars.any (fun c => (pyLower q).contains c) = true
    · rw [hd]; simp
    · have hd2 : vietnamese_chars.any (fun c => (pyLower q).contains c) = false :=
        Bool.eq_false_iff.mpr hd
      have hx : (pystr "thị xã").isPrefixOf (pyLower q) = false := by
        cases hxv : (pystr "thị xã").isPrefixOf (pyLower q)
        · rfl
        · have hcon := thi_entries_imply_diacritic (pyLower q) (Or.inl hxv)
          rw [hd2] at hcon
          exact Bool.noConfusion hcon
      have hy : (pystr "thị trấn").isPrefixOf (pyLower q) = false := by
        cases hyv : (pystr "thị trấn").isPrefixOf (pyLower q)
        · rfl
        · have hcon := thi_entries_imply_diacritic (pyLower q) (Or.inr hyv)
          rw [hd2] at hcon
          exact Bool.noConfusion hcon
      rw [hd2]
      simp [List.any_cons, List.any_nil, hx, hy]

/-- The accumulator fold of the dispatcher equals appending the
first-occurrence-per-id filter of the incoming results, and the seen set
stays the image of the accumulator under the id projection. -/
theorem foldl_addUnique_eq (rs : List SearchResult) :
    ∀ acc : List SearchResult,
      rs.foldl addUnique (acc, acc.map (fun r => r.id))
        = (acc ++ dedupById rs (acc.map (fun r => r.id)),
           (acc ++ dedupById rs (acc.map (fun r => r.id))).map (fun r => r.id)) := by
  induction rs with
  | nil => intro acc; simp [dedupById]
  | cons r rs ih =>
      intro acc
      rw [List.foldl_cons]
      by_cases h : r.id ∈ acc.map (fun r => r.id)
      · have ha : addUnique (acc, acc.map (fun r => r.id)) r
            = (acc, acc.map (fun r => r.id)) := by
          simp [addUnique, h]
        have hd : dedupById (r :: rs) (acc.map (fun r => r.id))
            = dedupById rs (acc.map (fun r => r.id)) := by
          simp [dedupById, h]
        rw [ha, hd]
        exact ih acc
      · have ha : addUnique (acc, acc.map (fun r => r.id)) r
            = (acc ++ [r], acc.map (fun r => r.id) ++ [r.id]) := by
          simp [addUnique, h]
        have hd : dedupById (r :: rs) (acc.map (fun r => r.id))
            = r :: dedupById rs (acc.map (fun r => r.id) ++ [r.id]) := by
          simp [dedupById, h]
        have hmap : acc.map (fun r => r.id) ++ [r.id]
            = (acc ++ [r]).map (fun r => r.id) := by simp
        rw [ha, hd, hmap, ih (acc ++ [r])]
        simp [List.append_assoc]

/-- First-occurrence filtering of a concatenated stream splits into
filtering the two parts in sequence. -/
theorem dedupById_append (xs ys : List SearchResult) :
    ∀ seen, dedupById (xs ++ ys) seen
      = dedupById xs seen
        ++ dedupById ys (seen ++ (dedupById xs seen).map (fun r => r.id)) := by
  induction xs with
  | nil => intro seen; simp [dedupById]
  | cons r xs ih =>
      intro seen
      rw [List.cons_append]
      by_cases h : r.id ∈ seen
      · simp only [dedupById, if_pos h]
        exact ih seen
      · simp only [dedupById, if_neg h]
        rw [ih (seen ++ [r.id])]
        simp [List.append_assoc]

/-- The first-occurrence filter is an order-preserving sublist of its
input stream. -/
theorem dedupById_sublist (rs : List SearchResult) :
    ∀ seen, List.Sublist (dedupById rs seen) rs := by
  induction rs with
  | nil => intro seen; simp [dedupById]
  | cons r rs ih =>
      intro seen
      by_cases h : r.id ∈ seen
      · simp only [dedupById, if_pos h]
        exact (ih seen).trans (List.sublist_cons_self r rs)
      · simp only [dedupById, if_neg h]
        exact List.Sublist.cons₂ r (ih (seen ++ [r.id]))

/-- Results kept by the first-occurrence filter have ids outside the seen
set. -/
theorem dedupById_id_not_seen (rs : List SearchResult) :
    ∀ seen, ∀ x ∈ dedupById rs seen, x.id ∉ seen := by
  induction rs with
  | nil => intro seen x hx; simp [dedupById] at hx
  | cons r rs ih =>
      intro seen x hx
      by_cases h : r.id ∈ seen
      · simp only [dedupById, if_pos h] at hx
        exact ih seen x hx
      · simp only [dedupById, if_neg h] at hx
        rcases List.mem_cons.mp hx with rfl | hx2
        · exact h
        · have hni := ih (seen ++ [r.id]) x hx2
          intro hc
          exact hni (List.mem_append_left _ hc)

/-- The ids kept by the first-occurrence filter are pairwise distinct. -/
theorem dedupById_ids_nodup (rs : List SearchResult) :
    ∀ seen, ((dedupById rs seen).map (fun r => r.id)).Nodup := by
  induction rs with
  | nil => intro seen; simp [dedupById]
  | cons r rs ih =>
      intro seen
      by_cases h : r.id ∈ seen
      · simp only [dedupById, if_pos h]
        exact ih seen
      · simp only [dedupById, if_neg h, List.map_cons]
        rw [List.nodup_cons]
        refine ⟨?_, ih _⟩
        intro hc
        rcases List.mem_map.mp hc with ⟨x, hx, hxe⟩
        have hni := dedupById_id_not_seen rs (seen ++ [r.id]) x hx
        exact hni (by rw [hxe]; exact List.mem_append_right _ (by simp))

/-- Characterisation of a successful candidate loop: the issued trace is a
prefix extension, the accumulator is the first-occurrence filter of the
stream of issued responses, and stopping before the list is exhausted
implies at least ten accumulated results. -/
theorem searchLoop_ok_spec (provider : Str → Except SearchErr (List SearchResult)) :
    ∀ (qs : List Str) (acc : List SearchResult) (issued : List Str)
      (res : List SearchResult) (out : List Str),
      searchLoop provider qs acc (acc.map (fun r => r.id)) issued = .ok (res, out) →
      ∃ tail, out = issued ++ tail ∧ tail <+: qs ∧
        res = acc ++ dedupById (streamOf provider tail) (acc.map (fun r => r.id)) ∧
        (tail.length < qs.length → 10 ≤ res.length) := by
  intro qs
  induction qs with
  | nil =>
      intro acc issued res out h
      simp only [searchLoop, Except.ok.injEq, Prod.mk.injEq] at h
      obtain ⟨hres, hout⟩ := h
      refine ⟨[], by simp [hout.symm], List.nil_prefix, ?_, ?_⟩
      · simp [← hres, streamOf, dedupById]
      · intro hlt; exact absurd hlt (by simp)
  | cons q rest ih =>
      intro acc issued res out h
      cases hp : provider q with
      | error e =>
          simp only [searchLoop, hp] at h
          exact absurd h (by simp)
      | ok rs =>
          simp only [searchLoop, hp] at h
          rw [foldl_addUnique_eq rs acc] at h
          by_cases hlen :
              10 ≤ (acc ++ dedupById rs (acc.map (fun r => r.id))).length
          · rw [if_pos hlen] at h
            simp only [Except.ok.injEq, Prod.mk.injEq] at h
            obtain ⟨hres, hout⟩ := h
            refine ⟨[q], by rw [← hout], ⟨rest, rfl⟩, ?_, ?_⟩
            · rw [← hres]
              simp [streamOf, hp]
            · intro _; rw [← hres]; exact hlen
          · rw [if_neg hlen] at h
            obtain ⟨tail, htail, hpre, hres, hstop⟩ :=
              ih (acc ++ dedupById rs (acc.map (fun r => r.id))) (issued ++ [q]) res out h
            obtain ⟨t2, ht2⟩ := hpre
            refine ⟨q :: tail, ?_, ⟨t2, by rw [List.cons_append, ht2]⟩, ?_, ?_⟩
            · rw [htail]; simp
            · rw [hres]
              simp only [streamOf, hp]
              rw [dedupById_append]
              simp [List.append_assoc, List.map_append]
            · intro hlt
              exact hstop (by simpa using hlt)


/-- Claim C2: the dispatcher issues queries for a prefix of the candidate
list, in order; if it stops before exhausting the candidates, at least ten
unique results were accumulated; and when the first candidate alone yields
ten unique results, the run returns them having issued only that one
query. -/
theorem dispatcher_early_stop :
    (∀ (provider : Str → Except SearchErr (List SearchResult))
        (queries : List Str) (res : List SearchResult) (issued : List Str),
        searchRun provider queries = .ok (res, issued) →
        issued <+: queries ∧
          (issued.length < queries.length → 10 ≤ res.length)) ∧
    (∀ (provider : Str → Except SearchErr (List SearchResult)) (q : Str)
        (rest : List Str) (rs : List SearchResult),
        provider q = .ok rs → 10 ≤ (dedupById rs []).length →
        searchRun provider (q :: rest) = .ok (dedupById rs [], [q])) := by
  constructor
  · intro provider queries res issued h
    have h2 : searchLoop provider queries []
        (([] : List SearchResult).map (fun r => r.id)) [] = .ok (res, issued) := by
      simpa [searchRun] using h
    obtain ⟨tail, htail, hpre, hres, hstop⟩ :=
      searchLoop_ok_spec provider queries [] [] res issued h2
    have he : issued = tail := by simpa using htail
    subst he
    exact ⟨hpre, hstop⟩
  · intro provider q rest rs hp hlen
    unfold searchRun
    simp only [searchLoop, hp]
    have hf := foldl_addUnique_eq rs ([] : List SearchResult)
    simp only [List.map_nil, List.nil_append] at hf
    rw [hf]
    simp [hlen]

/-- Claim C2, witness: both parts instantiated on a mock provider that
answers "hanoi" with ten unique results; the second candidate is never
issued. -/
theorem dispatcher_early_stop_witness :
    (mockProvider (pystr "hanoi") = Except.ok tenResults ∧
      10 ≤ (dedupById tenResults []).length ∧
      searchRun mockProvider [pystr "hanoi", pystr "ha noi"]
        = .ok (dedupById tenResults [], [pystr "hanoi"])) ∧
    ([pystr "hanoi"] <+: [pystr "hanoi", pystr "ha noi"] ∧
      ([pystr "hanoi"].length < [pystr "hanoi", pystr "ha noi"].length →
        10 ≤ (dedupById tenResults []).length)) :=
  ⟨⟨rfl, by decide,
    dispatcher_early_stop.2 mockProvider (pystr "hanoi") [pystr "ha noi"]
      tenResults rfl (by decide)⟩,
   dispatcher_early_stop.1 mockProvider [pystr "hanoi", pystr "ha noi"]
     (dedupById tenResults []) [pystr "hanoi"] rfl⟩

/-- Claim C3: the handler returns the accumulator truncated to ten and
formatted; the returned list has at most ten entries, pairwise distinct
ids, and the accumulator is exactly the first-occurrence-per-id filter of
the concatenated responses of the issued queries, in first-insertion
order (an order-preserving sublist of that stream). -/
theorem dispatcher_results_dedup_bounded :
    ∀ (provider : Str → Except SearchErr (List SearchResult)) (queries : List Str)
      (res : List SearchResult) (issued : List Str),
      searchRun provider queries = .ok (res, issued) →
      search_cities provider queries = .ok ((res.take 10).map formatResult) 200 ∧
      ((res.take 10).map formatResult).length ≤ 10 ∧
      (((res.take 10).map formatResult).map (fun r => r.id)).Nodup ∧
      res = dedupById (streamOf provider issued) [] ∧
      List.Sublist res (streamOf provider issued) := by
  intro provider queries res issued h
  have h2 : searchLoop provider queries []
      (([] : List SearchResult).map (fun r => r.id)) [] = .ok (res, issued) := by
    simpa [searchRun] using h
  obtain ⟨tail, htail, hpre, hres, hstop⟩ :=
    searchLoop_ok_spec provider queries [] [] res issued h2
  have he : issued = tail := by simpa using htail
  subst he
  have hres2 : res = dedupById (streamOf provider issued) [] := by simpa using hres
  refine ⟨?_, ?_, ?_, hres2, ?_⟩
  · simp [search_cities, h]
  · rw [List.length_map, List.length_take]
    exact Nat.min_le_left _ _
  · have hnd : (res.map (fun r => r.id)).Nodup := by
      rw [hres2]; exact dedupById_ids_nodup _ []
    have hmm2 : ((res.take 10).map formatResult).map (fun r => r.id)
        = (res.map (fun r => r.id)).take 10 := by
      rw [List.map_map, List.map_take]
      exact congrArg _ (List.map_congr_left (fun a ha => rfl))
    rw [hmm2]
    exact List.Nodup.sublist (List.take_sublist _ _) hnd
  · rw [hres2]
    exact dedupById_sublist _ []

/-- Claim C3, witness: the theorem instantiated on a two-candidate run
whose responses overlap on one id; the duplicate is dropped and the
first-seen result kept. -/
theorem dispatcher_results_witness :
    search_cities mockProviderDup [pystr "hanoi", pystr "ha noi"]
      = .ok ((([mkResult 1, mkResult 2, mkResult 3]).take 10).map formatResult) 200 ∧
    ((([mkResult 1, mkResult 2, mkResult 3]).take 10).map formatResult).length ≤ 10 ∧
    (((([mkResult 1, mkResult 2, mkResult 3]).take 10).map formatResult).map
        (fun r => r.id)).Nodup ∧
    [mkResult 1, mkResult 2, mkResult 3]
      = dedupById (streamOf mockProviderDup [pystr "hanoi", pystr "ha noi"]) [] ∧
    List.Sublist [mkResult 1, mkResult 2, mkResult 3]
      (streamOf mockProviderDup [pystr "hanoi", pystr "ha noi"]) :=
  dispatcher_results_dedup_bounded mockProviderDup [pystr "hanoi", pystr "ha noi"]
    [mkResult 1, mkResult 2, mkResult 3] [pystr "hanoi", pystr "ha noi"] rfl

/-- Claim C4: a failing provider call on the candidate just reached makes
the whole loop return that error, whatever was already accumulated; the
handler turns the error into an error response carrying no results
(HTTP errors as SEARCH_ERROR 500, timeouts as TIMEOUT_ERROR 504). -/
theorem dispatcher_aborts_on_failure :
    (∀ (provider : Str → Except SearchErr (List SearchResult)) (q : Str)
        (rest : List Str) (acc : List SearchResult) (seen : List (Option Nat))
        (issued : List Str) (e : SearchErr),
        provider q = .error e →
        searchLoop provider (q :: rest) acc seen issued = .error e) ∧
    (∀ (provider : Str → Except SearchErr (List SearchResult))
        (queries : List Str) (e : SearchErr),
        searchRun provider queries = .error e →
        search_cities provider queries = .err (errorResponseOf e)) ∧
    errorResponseOf SearchErr.httpError = ⟨pystr "SEARCH_ERROR", 500⟩ ∧
    errorResponseOf SearchErr.timeout = ⟨pystr "TIMEOUT_ERROR", 504⟩ := by
  refine ⟨?_, ?_, rfl, rfl⟩
  · intro provider q rest acc seen issued e hp
    simp [searchLoop, hp]
  · intro provider queries e h
    simp [search_cities, h]

/-- Claim C4, witness: the abort applied to a mock provider failing on
"bad" with one result already accumulated, and to a one-candidate run
whose only query fails. -/
theorem dispatcher_aborts_witness :
    searchLoop mockProvider [pystr "bad"] [mkResult 0] [some 0] []
      = .error SearchErr.httpError ∧
    search_cities mockProvider [pystr "bad"]
      = .err (errorResponseOf SearchErr.httpError) :=
  ⟨dispatcher_aborts_on_failure.1 mockProvider (pystr "bad") [] [mkResult 0]
      [some 0] [] SearchErr.httpError rfl,
   dispatcher_aborts_on_failure.2.1 mockProvider [pystr "bad"] SearchErr.httpError rfl⟩

end WeatherSearch
